import Mathlib

/-!
Verification of the ARM Cortex-M System Control Block fault-status interface
(`include/arch/arm/cortex_m/scb.h`, ARMv7-M branch) against its design
specification.

Every C function of the header reads or writes bit-fields of the
memory-mapped SCB fault-status registers declared in `scs.h`.  The register
block is embedded as an explicit state record and every function becomes a
state transformer: value-returning functions become `Scb → α × Scb` (the
second component is the register block after the call) and `void` functions
become `Scb → Scb`.
-/

/-- Modelled from the spec: the SCB register block layout of `scs.h`, which is
not among the given sources.  The spec mandates a bit-exact layout matching
the target core's architecture reference manual (ARMv7-M).  The composite
CFSR is split into its three sub-registers because every access in `scb.h`
is at sub-register granularity: MMFSR = CFSR byte 0 (8 bits wide),
BFSR = CFSR byte 1 (8 bits wide), UFSR = CFSR upper half-word (16 bits wide);
HFSR, MMFAR and BFAR are 32 bits wide.  Bit positions, from the architecture
reference manual:
HFSR: VECTTBL = 1, FORCED = 30, DEBUGEVT = 31;
MMFSR: IACCVIOL = 0, DACCVIOL = 1, MUNSTKERR = 3, MSTKERR = 4, MMARVALID = 7;
BFSR: IBUSERR = 0, PRECISERR = 1, IMPRECISERR = 2, UNSTKERR = 3, STKERR = 4,
BFARVALID = 7;
UFSR: UNDEFINSTR = 0, INVSTATE = 1, INVPC = 2, NOCP = 3, UNALIGNED = 8,
DIVBYZERO = 9. -/
structure Scb where
  hfsr : Nat
  mmfsr : Nat
  bfsr : Nat
  ufsr : Nat
  mmfar : Nat
  bfar : Nat

/-- Modelled from the spec: the store semantics of the fault-status
registers.  The spec's glossary and the header's own comments state that
HFSR and the CFSR sub-registers are write-one-to-clear (W1C): storing `v`
into a `w`-bit W1C register currently holding `r` clears exactly the bits
set in `v` and leaves the bits at which `v` is zero unchanged. -/
def w1cWrite (w r v : Nat) : Nat :=
  r &&& ((2 ^ w - 1) ^^^ (v &&& (2 ^ w - 1)))

/-- `_ScbHardFaultIsBusErrOnVectorRead` (scb.h:59-62): reads
`scb.hfsr.bit.vecttbl`, HFSR bit 1.  The C function returns the bit as an
`int` 0/1; it is modelled as `Bool`. -/
def _ScbHardFaultIsBusErrOnVectorRead (s : Scb) : Bool × Scb :=
  (s.hfsr.testBit 1, s)

/-- `_ScbHardFaultAllFaultsReset` (scb.h:73-76): stores `0xffff` into HFSR
(a W1C register) and returns the assigned value. -/
def _ScbHardFaultAllFaultsReset (s : Scb) : Nat × Scb :=
  (0xffff, { s with hfsr := w1cWrite 32 s.hfsr 0xffff })

/-- `_ScbIsMemFault` (scb.h:87-90): reads `cfsr.byte.mmfsr.val` and
normalizes it with `!!`. -/
def _ScbIsMemFault (s : Scb) : Bool × Scb :=
  (s.mmfsr != 0, s)

/-- `_ScbMemFaultIsMmfarValid` (scb.h:101-104): reads
`cfsr.byte.mmfsr.bit.mmarvalid`, MMFSR bit 7. -/
def _ScbMemFaultIsMmfarValid (s : Scb) : Bool × Scb :=
  (s.mmfsr.testBit 7, s)

/-- `_ScbMemFaultMmfarReset` (scb.h:116-119): the statement
`cfsr.byte.mmfsr.bit.mmarvalid = 0` is a C bit-field assignment, which
compiles to a read-modify-write of the MMFSR byte: read the byte, clear
bit 7 in the read value, store the result back.  The store targets the W1C
register, hence `w1cWrite`. -/
def _ScbMemFaultMmfarReset (s : Scb) : Scb :=
  { s with mmfsr := w1cWrite 8 s.mmfsr (s.mmfsr &&& 0x7f) }

/-- `_ScbMemFaultAllFaultsReset` (scb.h:130-133): stores `0xfe` into MMFSR
(a W1C register). -/
def _ScbMemFaultAllFaultsReset (s : Scb) : Scb :=
  { s with mmfsr := w1cWrite 8 s.mmfsr 0xfe }

/-- `_ScbMemFaultIsStacking` (scb.h:145-148): reads
`cfsr.byte.mmfsr.bit.mstkerr`, MMFSR bit 4. -/
def _ScbMemFaultIsStacking (s : Scb) : Bool × Scb :=
  (s.mmfsr.testBit 4, s)

/-- `_ScbMemFaultIsUnstacking` (scb.h:160-163): reads
`cfsr.byte.mmfsr.bit.munstkerr`, MMFSR bit 3. -/
def _ScbMemFaultIsUnstacking (s : Scb) : Bool × Scb :=
  (s.mmfsr.testBit 3, s)

/-- `_ScbMemFaultIsDataAccessViolation` (scb.h:175-178): reads
`cfsr.byte.mmfsr.bit.daccviol`, MMFSR bit 1. -/
def _ScbMemFaultIsDataAccessViolation (s : Scb) : Bool × Scb :=
  (s.mmfsr.testBit 1, s)

/-- `_ScbMemFaultIsInstrAccessViolation` (scb.h:190-193): reads
`cfsr.byte.mmfsr.bit.iaccviol`, MMFSR bit 0. -/
def _ScbMemFaultIsInstrAccessViolation (s : Scb) : Bool × Scb :=
  (s.mmfsr.testBit 0, s)

/-- `_ScbMemFaultAddrGet` (scb.h:202-205): reads the MMFAR register. -/
def _ScbMemFaultAddrGet (s : Scb) : Nat × Scb :=
  (s.mmfar, s)

/-- `_ScbIsBusFault` (scb.h:216-219): reads `cfsr.byte.bfsr.val` and
normalizes it with `!!`. -/
def _ScbIsBusFault (s : Scb) : Bool × Scb :=
  (s.bfsr != 0, s)

/-- `_ScbBusFaultIsBfarValid` (scb.h:230-233): reads
`cfsr.byte.bfsr.bit.bfarvalid`, BFSR bit 7. -/
def _ScbBusFaultIsBfarValid (s : Scb) : Bool × Scb :=
  (s.bfsr.testBit 7, s)

/-- `_ScbBusFaultBfarReset` (scb.h:245-248): the statement
`cfsr.byte.bfsr.bit.bfarvalid = 0` is a C bit-field assignment, a
read-modify-write of the BFSR byte: read the byte, clear bit 7 in the read
value, store the result back into the W1C register. -/
def _ScbBusFaultBfarReset (s : Scb) : Scb :=
  { s with bfsr := w1cWrite 8 s.bfsr (s.bfsr &&& 0x7f) }

/-- `_ScbBusFaultAllFaultsReset` (scb.h:259-262): stores `0xfe` into BFSR
(a W1C register). -/
def _ScbBusFaultAllFaultsReset (s : Scb) : Scb :=
  { s with bfsr := w1cWrite 8 s.bfsr 0xfe }

/-- `_ScbBusFaultIsStacking` (scb.h:274-277): reads
`cfsr.byte.bfsr.bit.stkerr`, BFSR bit 4. -/
def _ScbBusFaultIsStacking (s : Scb) : Bool × Scb :=
  (s.bfsr.testBit 4, s)

/-- `_ScbBusFaultIsUnstacking` (scb.h:289-292): reads
`cfsr.byte.bfsr.bit.unstkerr`, BFSR bit 3. -/
def _ScbBusFaultIsUnstacking (s : Scb) : Bool × Scb :=
  (s.bfsr.testBit 3, s)

/-- `_ScbBusFaultIsImprecise` (scb.h:303-306): reads
`cfsr.byte.bfsr.bit.impreciserr`, BFSR bit 2. -/
def _ScbBusFaultIsImprecise (s : Scb) : Bool × Scb :=
  (s.bfsr.testBit 2, s)

/-- `_ScbBusFaultIsPrecise` (scb.h:318-321): reads
`cfsr.byte.bfsr.bit.preciserr`, BFSR bit 1. -/
def _ScbBusFaultIsPrecise (s : Scb) : Bool × Scb :=
  (s.bfsr.testBit 1, s)

/-- `_ScbBusFaultIsInstrBusErr` (scb.h:333-336): reads
`cfsr.byte.bfsr.bit.ibuserr`, BFSR bit 0. -/
def _ScbBusFaultIsInstrBusErr (s : Scb) : Bool × Scb :=
  (s.bfsr.testBit 0, s)

/-- `_ScbBusFaultAddrGet` (scb.h:347-350): reads the BFAR register. -/
def _ScbBusFaultAddrGet (s : Scb) : Nat × Scb :=
  (s.bfar, s)

/-- `_ScbIsUsageFault` (scb.h:361-364): reads `cfsr.byte.ufsr.val` and
normalizes it with `!!`. -/
def _ScbIsUsageFault (s : Scb) : Bool × Scb :=
  (s.ufsr != 0, s)

/-- `_ScbUsageFaultIsDivByZero` (scb.h:375-378): reads
`cfsr.byte.ufsr.bit.divbyzero`, UFSR bit 9. -/
def _ScbUsageFaultIsDivByZero (s : Scb) : Bool × Scb :=
  (s.ufsr.testBit 9, s)

/-- `_ScbUsageFaultIsUnaligned` (scb.h:389-392): reads
`cfsr.byte.ufsr.bit.unaligned`, UFSR bit 8. -/
def _ScbUsageFaultIsUnaligned (s : Scb) : Bool × Scb :=
  (s.ufsr.testBit 8, s)

/-- `_ScbUsageFaultIsNoCp` (scb.h:404-407): reads
`cfsr.byte.ufsr.bit.nocp`, UFSR bit 3. -/
def _ScbUsageFaultIsNoCp (s : Scb) : Bool × Scb :=
  (s.ufsr.testBit 3, s)

/-- `_ScbUsageFaultIsInvalidPcLoad` (scb.h:419-422): reads
`cfsr.byte.ufsr.bit.invpc`, UFSR bit 2. -/
def _ScbUsageFaultIsInvalidPcLoad (s : Scb) : Bool × Scb :=
  (s.ufsr.testBit 2, s)

/-- `_ScbUsageFaultIsInvalidState` (scb.h:435-438): reads
`cfsr.byte.ufsr.bit.invstate`, UFSR bit 1. -/
def _ScbUsageFaultIsInvalidState (s : Scb) : Bool × Scb :=
  (s.ufsr.testBit 1, s)

/-- `_ScbUsageFaultIsUndefinedInstr` (scb.h:449-452): reads
`cfsr.byte.ufsr.bit.undefinstr`, UFSR bit 0. -/
def _ScbUsageFaultIsUndefinedInstr (s : Scb) : Bool × Scb :=
  (s.ufsr.testBit 0, s)

/-- `_ScbUsageFaultAllFaultsReset` (scb.h:463-466): stores `0xffff` into
UFSR (a W1C register). -/
def _ScbUsageFaultAllFaultsReset (s : Scb) : Scb :=
  { s with ufsr := w1cWrite 16 s.ufsr 0xffff }

/-- Register state with only the instruction-access-violation bit of MMFSR
and the instruction-bus-error bit of BFSR latched (bit 0 of each byte). -/
def instrFaultState : Scb :=
  { hfsr := 0, mmfsr := 0x01, bfsr := 0x01, ufsr := 0, mmfar := 0, bfar := 0 }

/-- Register state with the stacking-fault and address-valid bits latched in
both MMFSR and BFSR (value 0x90 in each byte). -/
def validStackingState : Scb :=
  { hfsr := 0, mmfsr := 0x90, bfsr := 0x90, ufsr := 0, mmfar := 0, bfar := 0 }

/-- Register state with HFSR holding VECTTBL (bit 1) and FORCED (bit 30). -/
def hardForcedState : Scb :=
  { hfsr := 0x40000002, mmfsr := 0, bfsr := 0, ufsr := 0, mmfar := 0, bfar := 0 }

/-- Register state with exactly the memory stacking-fault bit (MMFSR bit 4)
and the address-valid bit (MMFSR bit 7) set and MMFAR = 0x20001000. -/
def memStackingState : Scb :=
  { hfsr := 0, mmfsr := 0x90, bfsr := 0, ufsr := 0, mmfar := 0x20001000, bfar := 0 }

/-- Register state with exactly the imprecise-error bit (BFSR bit 2) set and
the address-valid bit clear. -/
def busImpreciseState : Scb :=
  { hfsr := 0, mmfsr := 0, bfsr := 0x04, ufsr := 0, mmfar := 0, bfar := 0 }

/-- Register state with both the imprecise-error bit (BFSR bit 2) and the
address-valid bit (BFSR bit 7) set. -/
def busImpreciseValidState : Scb :=
  { hfsr := 0, mmfsr := 0, bfsr := 0x84, ufsr := 0, mmfar := 0, bfar := 0 }

/-- Register state with the divide-by-zero (UFSR bit 9) and
undefined-instruction (UFSR bit 0) bits set. -/
def usageDivUndefState : Scb :=
  { hfsr := 0, mmfsr := 0, bfsr := 0, ufsr := 0x201, mmfar := 0, bfar := 0 }

/-- Register state with only the architecturally reserved UFSR bit 4 set. -/
def usageReservedState : Scb :=
  { hfsr := 0, mmfsr := 0, bfsr := 0, ufsr := 0x10, mmfar := 0, bfar := 0 }

/-- Register state with only the no-coprocessor bit (UFSR bit 3) set. -/
def usageNoCpState : Scb :=
  { hfsr := 0, mmfsr := 0, bfsr := 0, ufsr := 0x08, mmfar := 0, bfar := 0 }

/-- Register state with only the data-access-violation bit (MMFSR bit 1)
set; used to observe independence from the stacking bit. -/
def memDaccviolState : Scb :=
  { hfsr := 0, mmfsr := 0x02, bfsr := 0, ufsr := 0, mmfar := 0, bfar := 0 }

/-- `memDaccviolState` with MMFSR bit 4 (the stacking bit) flipped on. -/
def memDaccviolStackingState : Scb :=
  { hfsr := 0, mmfsr := 0x12, bfsr := 0, ufsr := 0, mmfar := 0, bfar := 0 }

theorem testBit_xor_two_pow_ne (x a b : Nat) (h : b ≠ a) :
    (x ^^^ 1 <<< a).testBit b = x.testBit b := by
  rw [Nat.shiftLeft_eq, Nat.one_mul, Nat.testBit_xor,
    Nat.testBit_two_pow_of_ne (Ne.symm h), Bool.xor_false]

/-- Claim C1 (failing evaluation): the view-wide resets do NOT leave every
cause predicate false.  With only IACCVIOL latched in MMFSR (resp. IBUSERR
in BFSR), the W1C store of mask `0xfe` — whose bit 0 is zero — leaves bit 0
set, so the instruction-access-violation (resp. instruction-bus-error)
predicate still returns true after `_ScbMemFaultAllFaultsReset`
(resp. `_ScbBusFaultAllFaultsReset`), contradicting the header's own
"Clear all" documentation.  The usage-fault reset mask `0xffff` does cover
its whole 16-bit register. -/
theorem memBusFaultsReset_miss_bit0 :
    (_ScbMemFaultIsInstrAccessViolation (_ScbMemFaultAllFaultsReset instrFaultState)).1 = true ∧
    (_ScbBusFaultIsInstrBusErr (_ScbBusFaultAllFaultsReset instrFaultState)).1 = true ∧
    (_ScbUsageFaultAllFaultsReset instrFaultState).ufsr = 0 := by
  decide

/-- Claim C2 (failing evaluation): the invalidate-fault-address operations do
not clear only the validity flag.  The C bit-field assignment is a
read-modify-write: on a W1C register it writes back every other latched bit
as a one (clearing it) and writes the validity bit as a zero (leaving it
set).  With the stacking-fault and validity bits latched, after
`_ScbMemFaultMmfarReset` (resp. `_ScbBusFaultBfarReset`) the validity
predicate still returns true and the stacking predicate has flipped from
true to false. -/
theorem faultAddrInvalidate_rmw_effect :
    (_ScbMemFaultIsStacking validStackingState).1 = true ∧
    (_ScbMemFaultIsMmfarValid (_ScbMemFaultMmfarReset validStackingState)).1 = true ∧
    (_ScbMemFaultIsStacking (_ScbMemFaultMmfarReset validStackingState)).1 = false ∧
    (_ScbBusFaultIsStacking validStackingState).1 = true ∧
    (_ScbBusFaultIsBfarValid (_ScbBusFaultBfarReset validStackingState)).1 = true ∧
    (_ScbBusFaultIsStacking (_ScbBusFaultBfarReset validStackingState)).1 = false := by
  decide

/-- Claim C3 (counterexample): `_ScbHardFaultAllFaultsReset` does not clear
every sticky bit of HFSR.  Starting from HFSR with VECTTBL (bit 1) and
FORCED (bit 30) set, the W1C store of the 16-bit mask `0xffff` leaves
FORCED set, so a sticky bit of the register remains set after the call. -/
theorem hardFaultReset_leaves_forced :
    ((_ScbHardFaultAllFaultsReset hardForcedState).2.hfsr.testBit 30 = true) ∧
    ((_ScbHardFaultAllFaultsReset hardForcedState).2.hfsr ≠ 0) := by
  decide

/-- Claim C3 (amended): `_ScbHardFaultAllFaultsReset` issues a
write-one-to-clear of mask `0xffff`, covering the fault bit decoded by this
interface: for every register state, after the call
`_ScbHardFaultIsBusErrOnVectorRead` returns false and every HFSR bit below
bit 16 is clear; sticky bits above bit 15 (FORCED, DEBUGEVT) are not
cleared. -/
theorem hardFaultReset_clears_low_bits (s : Scb) :
    (_ScbHardFaultIsBusErrOnVectorRead (_ScbHardFaultAllFaultsReset s).2).1 = false ∧
    (_ScbHardFaultAllFaultsReset s).2.hfsr &&& 0xffff = 0 := by
  have hmask : ((2 ^ 32 - 1 : Nat) ^^^ (0xffff &&& (2 ^ 32 - 1))) = 0xffff0000 := by decide
  have hh : (_ScbHardFaultAllFaultsReset s).2.hfsr = s.hfsr &&& 0xffff0000 := by
    show w1cWrite 32 s.hfsr 0xffff = s.hfsr &&& 0xffff0000
    unfold w1cWrite
    rw [hmask]
  constructor
  · show ((_ScbHardFaultAllFaultsReset s).2.hfsr).testBit 1 = false
    rw [hh, Nat.testBit_and]
    have hb : (0xffff0000 : Nat).testBit 1 = false := by decide
    rw [hb, Bool.and_false]
  · rw [hh, Nat.and_assoc]
    have hz : (0xffff0000 &&& 0xffff : Nat) = 0 := by decide
    rw [hz, Nat.and_zero]

/-- Claim C4: in the register state with exactly the stacking-fault and
address-valid bits of MMFSR set and MMFAR = 0x20001000, the stacking
predicate and the validity predicate return true, the other memory-fault
cause predicates return false, and the address accessor returns
0x20001000. -/
theorem memStacking_scenario :
    (_ScbMemFaultIsStacking memStackingState).1 = true ∧
    (_ScbMemFaultIsUnstacking memStackingState).1 = false ∧
    (_ScbMemFaultIsDataAccessViolation memStackingState).1 = false ∧
    (_ScbMemFaultIsInstrAccessViolation memStackingState).1 = false ∧
    (_ScbMemFaultIsMmfarValid memStackingState).1 = true ∧
    (_ScbMemFaultAddrGet memStackingState).1 = 0x20001000 := by
  decide

/-- Claim C5 (counterexample): the code does not guarantee that the bus-fault
address is valid only for precise faults.  In the register state with the
imprecise-error and address-valid bits both set (and the precise bit
clear), `_ScbBusFaultIsImprecise` and `_ScbBusFaultIsBfarValid` both return
true while `_ScbBusFaultIsPrecise` returns false: the predicates are
independent single-bit reads and enforce no relation between validity and
preciseness. -/
theorem busImprecise_with_valid :
    (_ScbBusFaultIsImprecise busImpreciseValidState).1 = true ∧
    (_ScbBusFaultIsBfarValid busImpreciseValidState).1 = true ∧
    (_ScbBusFaultIsPrecise busImpreciseValidState).1 = false := by
  decide

/-- Claim C5 (amended): in the register state with exactly the
imprecise-error bit set and the address-valid bit clear,
`_ScbBusFaultIsImprecise` returns true and `_ScbBusFaultIsBfarValid`
returns false. -/
theorem busImprecise_scenario :
    (_ScbBusFaultIsImprecise busImpreciseState).1 = true ∧
    (_ScbBusFaultIsBfarValid busImpreciseState).1 = false := by
  decide

/-- Claim C6: for every register state with the divide-by-zero and
undefined-instruction bits set, after `_ScbUsageFaultAllFaultsReset` both
`_ScbUsageFaultIsDivByZero` and `_ScbUsageFaultIsUndefinedInstr` return
false: the W1C store of `0xffff` clears the whole 16-bit UFSR. -/
theorem usageFaultReset_clears_causes (s : Scb)
    (_h1 : (_ScbUsageFaultIsDivByZero s).1 = true)
    (_h2 : (_ScbUsageFaultIsUndefinedInstr s).1 = true) :
    (_ScbUsageFaultIsDivByZero (_ScbUsageFaultAllFaultsReset s)).1 = false ∧
    (_ScbUsageFaultIsUndefinedInstr (_ScbUsageFaultAllFaultsReset s)).1 = false := by
  have hmask : ((2 ^ 16 - 1 : Nat) ^^^ (0xffff &&& (2 ^ 16 - 1))) = 0 := by decide
  have hz : (_ScbUsageFaultAllFaultsReset s).ufsr = 0 := by
    show w1cWrite 16 s.ufsr 0xffff = 0
    unfold w1cWrite
    rw [hmask, Nat.and_zero]
  constructor
  · show ((_ScbUsageFaultAllFaultsReset s).ufsr).testBit 9 = false
    rw [hz]
    exact Nat.zero_testBit 9
  · show ((_ScbUsageFaultAllFaultsReset s).ufsr).testBit 0 = false
    rw [hz]
    exact Nat.zero_testBit 0

/-- Claim C6, witnessed at the register state with UFSR = 0x201 (both bits
set). -/
theorem usageFaultReset_clears_causes_holds :
    (_ScbUsageFaultIsDivByZero usageDivUndefState).1 = true ∧
    (_ScbUsageFaultIsUndefinedInstr usageDivUndefState).1 = true ∧
    ((_ScbUsageFaultIsDivByZero (_ScbUsageFaultAllFaultsReset usageDivUndefState)).1 = false ∧
     (_ScbUsageFaultIsUndefinedInstr (_ScbUsageFaultAllFaultsReset usageDivUndefState)).1 = false) :=
  ⟨by decide, by decide,
   usageFaultReset_clears_causes usageDivUndefState (by decide) (by decide)⟩

/-- Claim C7 (counterexample): `_ScbIsUsageFault` tests the whole UFSR for
zero, so in the register state with only the architecturally reserved UFSR
bit 4 set it returns true while all six decoded usage-fault predicates
return false: the stated equivalence fails for that register state. -/
theorem usageAggregate_reserved_bit :
    (_ScbIsUsageFault usageReservedState).1 = true ∧
    (_ScbUsageFaultIsDivByZero usageReservedState).1 = false ∧
    (_ScbUsageFaultIsUnaligned usageReservedState).1 = false ∧
    (_ScbUsageFaultIsNoCp usageReservedState).1 = false ∧
    (_ScbUsageFaultIsInvalidPcLoad usageReservedState).1 = false ∧
    (_ScbUsageFaultIsInvalidState usageReservedState).1 = false ∧
    (_ScbUsageFaultIsUndefinedInstr usageReservedState).1 = false := by
  decide

set_option maxRecDepth 4000 in
theorem usage_aggregate_bounded :
    ∀ u, u < 784 → u &&& 0x30f = u →
      (u ≠ 0 ↔ (u.testBit 9 = true ∨ u.testBit 8 = true ∨ u.testBit 3 = true ∨
        u.testBit 2 = true ∨ u.testBit 1 = true ∨ u.testBit 0 = true)) := by
  decide

/-- Claim C7 (amended): for every register state in which only the six
decoded UFSR bits (0, 1, 2, 3, 8, 9) can be set — i.e. the architecturally
reserved bits are clear and the value fits the 16-bit register, expressed
as `ufsr &&& 0x30f = ufsr` — `_ScbIsUsageFault` returns true exactly when
at least one of the six usage-fault cause predicates returns true. -/
theorem usageFault_aggregates (s : Scb) (h : s.ufsr &&& 0x30f = s.ufsr) :
    ((_ScbIsUsageFault s).1 = true ↔
      ((_ScbUsageFaultIsDivByZero s).1 = true ∨
       (_ScbUsageFaultIsUnaligned s).1 = true ∨
       (_ScbUsageFaultIsNoCp s).1 = true ∨
       (_ScbUsageFaultIsInvalidPcLoad s).1 = true ∨
       (_ScbUsageFaultIsInvalidState s).1 = true ∨
       (_ScbUsageFaultIsUndefinedInstr s).1 = true)) := by
  have hb : s.ufsr < 784 := by
    have hle : s.ufsr &&& 0x30f ≤ 0x30f := Nat.and_le_right
    rw [h] at hle
    omega
  have key := usage_aggregate_bounded s.ufsr hb h
  show (s.ufsr != 0) = true ↔ _
  rw [bne_iff_ne]
  exact key

/-- Claim C7 (amended), witnessed at the register state with only the
no-coprocessor bit set. -/
theorem usageFault_aggregates_holds :
    usageNoCpState.ufsr &&& 0x30f = usageNoCpState.ufsr ∧
    ((_ScbIsUsageFault usageNoCpState).1 = true ↔
      ((_ScbUsageFaultIsDivByZero usageNoCpState).1 = true ∨
       (_ScbUsageFaultIsUnaligned usageNoCpState).1 = true ∨
       (_ScbUsageFaultIsNoCp usageNoCpState).1 = true ∨
       (_ScbUsageFaultIsInvalidPcLoad usageNoCpState).1 = true ∨
       (_ScbUsageFaultIsInvalidState usageNoCpState).1 = true ∨
       (_ScbUsageFaultIsUndefinedInstr usageNoCpState).1 = true)) :=
  ⟨by decide, usageFault_aggregates usageNoCpState (by decide)⟩

theorem viewBit_congr {y x : Nat} (a k : Nat) (hy : y = x ^^^ 1 <<< a)
    (h : a ≠ k) : y.testBit k = x.testBit k := by
  rw [hy]
  exact testBit_xor_two_pow_ne x a k (Ne.symm h)

/-- Claim C8: cause predicates within a view are independent.  If two
register states have a view's status register differing exactly in bit `a`
(an xor with `1 <<< a`), then every predicate of that view that reads a bit
other than `a` returns the same value in both states; stated for the
memory-fault, bus-fault and usage-fault views. -/
theorem causeBit_independence (s s' : Scb) (a : Nat) :
    (s'.mmfsr = s.mmfsr ^^^ 1 <<< a →
      ((a ≠ 0 → (_ScbMemFaultIsInstrAccessViolation s').1 =
          (_ScbMemFaultIsInstrAccessViolation s).1) ∧
       (a ≠ 1 → (_ScbMemFaultIsDataAccessViolation s').1 =
          (_ScbMemFaultIsDataAccessViolation s).1) ∧
       (a ≠ 3 → (_ScbMemFaultIsUnstacking s').1 = (_ScbMemFaultIsUnstacking s).1) ∧
       (a ≠ 4 → (_ScbMemFaultIsStacking s').1 = (_ScbMemFaultIsStacking s).1) ∧
       (a ≠ 7 → (_ScbMemFaultIsMmfarValid s').1 = (_ScbMemFaultIsMmfarValid s).1))) ∧
    (s'.bfsr = s.bfsr ^^^ 1 <<< a →
      ((a ≠ 0 → (_ScbBusFaultIsInstrBusErr s').1 = (_ScbBusFaultIsInstrBusErr s).1) ∧
       (a ≠ 1 → (_ScbBusFaultIsPrecise s').1 = (_ScbBusFaultIsPrecise s).1) ∧
       (a ≠ 2 → (_ScbBusFaultIsImprecise s').1 = (_ScbBusFaultIsImprecise s).1) ∧
       (a ≠ 3 → (_ScbBusFaultIsUnstacking s').1 = (_ScbBusFaultIsUnstacking s).1) ∧
       (a ≠ 4 → (_ScbBusFaultIsStacking s').1 = (_ScbBusFaultIsStacking s).1) ∧
       (a ≠ 7 → (_ScbBusFaultIsBfarValid s').1 = (_ScbBusFaultIsBfarValid s).1))) ∧
    (s'.ufsr = s.ufsr ^^^ 1 <<< a →
      ((a ≠ 0 → (_ScbUsageFaultIsUndefinedInstr s').1 =
          (_ScbUsageFaultIsUndefinedInstr s).1) ∧
       (a ≠ 1 → (_ScbUsageFaultIsInvalidState s').1 =
          (_ScbUsageFaultIsInvalidState s).1) ∧
       (a ≠ 2 → (_ScbUsageFaultIsInvalidPcLoad s').1 =
          (_ScbUsageFaultIsInvalidPcLoad s).1) ∧
       (a ≠ 3 → (_ScbUsageFaultIsNoCp s').1 = (_ScbUsageFaultIsNoCp s).1) ∧
       (a ≠ 8 → (_ScbUsageFaultIsUnaligned s').1 = (_ScbUsageFaultIsUnaligned s).1) ∧
       (a ≠ 9 → (_ScbUsageFaultIsDivByZero s').1 = (_ScbUsageFaultIsDivByZero s).1))) := by
  refine ⟨fun hm => ?_, fun hb => ?_, fun hu => ?_⟩
  · exact ⟨fun h => viewBit_congr a 0 hm h, fun h => viewBit_congr a 1 hm h,
      fun h => viewBit_congr a 3 hm h, fun h => viewBit_congr a 4 hm h,
      fun h => viewBit_congr a 7 hm h⟩
  · exact ⟨fun h => viewBit_congr a 0 hb h, fun h => viewBit_congr a 1 hb h,
      fun h => viewBit_congr a 2 hb h, fun h => viewBit_congr a 3 hb h,
      fun h => viewBit_congr a 4 hb h, fun h => viewBit_congr a 7 hb h⟩
  · exact ⟨fun h => viewBit_congr a 0 hu h, fun h => viewBit_congr a 1 hu h,
      fun h => viewBit_congr a 2 hu h, fun h => viewBit_congr a 3 hu h,
      fun h => viewBit_congr a 8 hu h, fun h => viewBit_congr a 9 hu h⟩

/-- Claim C8, witnessed: flipping the memory stacking bit (bit 4) between
`memDaccviolState` and `memDaccviolStackingState` leaves the
data-access-violation predicate unchanged. -/
theorem causeBit_independence_holds :
    (_ScbMemFaultIsDataAccessViolation memDaccviolStackingState).1 =
      (_ScbMemFaultIsDataAccessViolation memDaccviolState).1 :=
  (((causeBit_independence memDaccviolState memDaccviolStackingState 4).1
    (by decide)).2.1) (by decide)

/-- Claim C9: every predicate and every address accessor is a pure read.
Their translated bodies contain no register store (and register reads are
non-destructive), so for every register state the register block after the
call equals the block before it — in particular also for
`_ScbMemFaultAddrGet` and `_ScbBusFaultAddrGet` in states where the
corresponding validity flag is false. -/
theorem predicates_pure (s : Scb) :
    (_ScbHardFaultIsBusErrOnVectorRead s).2 = s ∧
    (_ScbIsMemFault s).2 = s ∧
    (_ScbMemFaultIsMmfarValid s).2 = s ∧
    (_ScbMemFaultIsStacking s).2 = s ∧
    (_ScbMemFaultIsUnstacking s).2 = s ∧
    (_ScbMemFaultIsDataAccessViolation s).2 = s ∧
    (_ScbMemFaultIsInstrAccessViolation s).2 = s ∧
    (_ScbMemFaultAddrGet s).2 = s ∧
    (_ScbIsBusFault s).2 = s ∧
    (_ScbBusFaultIsBfarValid s).2 = s ∧
    (_ScbBusFaultIsStacking s).2 = s ∧
    (_ScbBusFaultIsUnstacking s).2 = s ∧
    (_ScbBusFaultIsImprecise s).2 = s ∧
    (_ScbBusFaultIsPrecise s).2 = s ∧
    (_ScbBusFaultIsInstrBusErr s).2 = s ∧
    (_ScbBusFaultAddrGet s).2 = s ∧
    (_ScbIsUsageFault s).2 = s ∧
    (_ScbUsageFaultIsDivByZero s).2 = s ∧
    (_ScbUsageFaultIsUnaligned s).2 = s ∧
    (_ScbUsageFaultIsNoCp s).2 = s ∧
    (_ScbUsageFaultIsInvalidPcLoad s).2 = s ∧
    (_ScbUsageFaultIsInvalidState s).2 = s ∧
    (_ScbUsageFaultIsUndefinedInstr s).2 = s :=
  ⟨rfl, rfl, rfl, rfl, rfl, rfl, rfl, rfl, rfl, rfl, rfl, rfl, rfl, rfl, rfl,
   rfl, rfl, rfl, rfl, rfl, rfl, rfl, rfl⟩

/-- Claim C10: for every register state the view-wide reset masks cover the
address-validity flags: after `_ScbMemFaultAllFaultsReset` the predicate
`_ScbMemFaultIsMmfarValid` returns false, and after
`_ScbBusFaultAllFaultsReset` the predicate `_ScbBusFaultIsBfarValid`
returns false (MMFSR/BFSR bit 7 is set in the W1C mask `0xfe`). -/
theorem viewReset_clears_validity (s : Scb) :
    (_ScbMemFaultIsMmfarValid (_ScbMemFaultAllFaultsReset s)).1 = false ∧
    (_ScbBusFaultIsBfarValid (_ScbBusFaultAllFaultsReset s)).1 = false := by
  have hmask : ((2 ^ 8 - 1 : Nat) ^^^ (0xfe &&& (2 ^ 8 - 1))) = 1 := by decide
  have h7 : (1 : Nat).testBit 7 = false := by decide
  constructor
  · show (w1cWrite 8 s.mmfsr 0xfe).testBit 7 = false
    unfold w1cWrite
    rw [hmask, Nat.testBit_and, h7, Bool.and_false]
  · show (w1cWrite 8 s.bfsr 0xfe).testBit 7 = false
    unfold w1cWrite
    rw [hmask, Nat.testBit_and, h7, Bool.and_false]
